import Mathlib

/-!
Verification development for the Herding Cats agent simulation.

The simulation state machine lives in `src/components/Game.tsx` (current
iteration, with the herding dog) and in the earlier iteration of the same
file kept in the repository (`src/unnamed/part_000`, second document),
which contains the convinced-state timer logic (`GameManager`).  This file
gives a shallow embedding of the per-frame update functions, the
judge-completion merge, the interaction close handlers and the win
evaluator, and proves the specified properties about them.

Numeric conventions: JavaScript numbers are modelled as rationals.  The
source computes Euclidean distances with `Math.sqrt` and only ever
compares them against a threshold; the embedding `distLeB p q r`
represents the comparison `calculateDistance(p, q) <= r` by the
equivalent square-free test `0 <= r && (q.x-p.x)^2 + (q.z-p.z)^2 <= r^2`
(the lemma `distLeB_eq_sqrt_le` below proves the equivalence with the
`Real.sqrt` form), and `distLtB` likewise represents
`calculateDistance(p, q) < r` by `0 < r && sqDist < r^2`.
`Math.random()` draws are passed in as explicit index / value arguments.
-/

/-- Ground-plane position `{x, z}` (`interface Position` in Game.tsx). -/
structure Position where
  x : ℚ
  z : ℚ

/-- Named location (`interface Waypoint` in Game.tsx): id, name, position,
target flag, visual type and capture radius. -/
structure Waypoint where
  id : Nat
  name : String
  position : Position
  isTarget : Bool
  wtype : String
  radius : ℚ

/-- Speaker role of one conversation turn. -/
inductive Role where
  | user
  | assistant

/-- One entry of `conversationHistory`: `{role, content}`. -/
structure ChatMessage where
  role : Role
  content : String

/-- The final structured judge decision `{message, newTarget}`;
`newTarget` is `number | null` in the source. -/
structure AIResult where
  message : String
  newTarget : Option Nat

/-- The streamed judge object `{thinking?, result?}` stored in
`npc.aiResponse`. -/
structure AIResponse where
  thinking : Option (List String)
  result : Option AIResult

/-- Agent record (`interface NPC` in Game.tsx), with every mutable field
of the simulation. -/
structure NPC where
  id : Nat
  position : Position
  color : String
  currentWaypoint : Option Nat
  targetWaypoint : Option Nat
  speed : ℚ
  isInteracting : Bool
  dwellTime : ℚ
  lastWaypoint : Option Nat
  personality : String
  conversationHistory : List ChatMessage
  aiResponse : Option AIResponse
  isTyping : Bool
  isConvinced : Bool
  convincedTimer : ℚ
  snarkyComment : Option String
  readTimeRemaining : ℚ
  responseComplete : Bool
  convincedThroughDialogue : Bool

/-- Squared Euclidean distance on the ground plane; the radicand of
`calculateDistance` in Game.tsx. -/
def sqDist (p q : Position) : ℚ :=
  (q.x - p.x) ^ 2 + (q.z - p.z) ^ 2

/-- Embedding of the comparison `calculateDistance(p, q) <= r`. -/
def distLeB (p q : Position) (r : ℚ) : Bool :=
  decide (0 ≤ r) && decide (sqDist p q ≤ r ^ 2)

/-- Embedding of the comparison `calculateDistance(p, q) < r`. -/
def distLtB (p q : Position) (r : ℚ) : Bool :=
  decide (0 < r) && decide (sqDist p q < r ^ 2)

/-- The square-free distance test agrees with the `Math.sqrt` comparison
performed by the source. -/
theorem distLeB_eq_sqrt_le (p q : Position) (r : ℚ) :
    distLeB p q r = true ↔
      Real.sqrt (((q.x - p.x : ℚ) : ℝ) ^ 2 + ((q.z - p.z : ℚ) : ℝ) ^ 2) ≤ (r : ℝ) := by
  have hrad : (((q.x - p.x : ℚ) : ℝ) ^ 2 + ((q.z - p.z : ℚ) : ℝ) ^ 2) = ((sqDist p q : ℚ) : ℝ) := by
    rw [sqDist]
    push_cast
    ring
  rw [distLeB, Bool.and_eq_true, decide_eq_true_eq, decide_eq_true_eq, hrad, Real.sqrt_le_iff]
  rw [show ((r : ℝ) ^ 2) = ((r ^ 2 : ℚ) : ℝ) by push_cast; ring]
  rw [Rat.cast_le]
  constructor
  · rintro ⟨h0, h1⟩
    exact ⟨by exact_mod_cast h0, h1⟩
  · rintro ⟨h0, h1⟩
    exact ⟨by exact_mod_cast h0, h1⟩

/-- Lookup of the unique target waypoint, `waypoints.find(w => w.isTarget)`. -/
def findTarget (ws : List Waypoint) : Option Waypoint :=
  ws.find? (fun w => w.isTarget)

/-- JavaScript truthiness of an optional string (`null`, `undefined` and
the empty string are falsy). -/
def jsTruthy (o : Option String) : Bool :=
  match o with
  | none => false
  | some s => !(s == "")

/-- JavaScript `a || b` on an optional string: the default is taken when
the value is missing or empty. -/
def jsOr (o : Option String) (d : String) : String :=
  match o with
  | none => d
  | some s => if s == "" then d else s

/-- Number of maximal whitespace runs in a string; `s.split(/\s+/).length`
in JavaScript equals this count plus one. -/
def wsRuns (s : String) : Nat :=
  (s.toList.foldl
    (fun (st : Bool × Nat) c =>
      if c.isWhitespace then (true, if st.1 then st.2 else st.2 + 1)
      else (false, st.2))
    (false, 0)).2

/-- Read-time computation from Game.tsx: `Math.max(2, wordCount * 0.15)`
where `wordCount = message.split(/\s+/).length`. -/
def calculateReadTime (message : String) : ℚ :=
  max 2 ((wsRuns message + 1 : ℚ) * (15 / 100))

/-- Extraction `n.aiResponse?.result?.newTarget` (optional chaining;
`undefined` and `null` are both modelled as `none`). -/
def judgeNewTarget (n : NPC) : Option Nat :=
  match n.aiResponse with
  | none => none
  | some r =>
    match r.result with
    | none => none
    | some res => res.newTarget

/-- Extraction `n.aiResponse?.result?.message`. -/
def judgeMessage (n : NPC) : Option String :=
  match n.aiResponse with
  | none => none
  | some r =>
    match r.result with
    | none => none
    | some res => some res.message

/-- Completion merge of a finished judge stream into the owning agent,
from `handleSendMessage` in Game.tsx (the identical block also ends
`handleDogCatInteraction`): writes `targetWaypoint` for any numeric
`newTarget`, appends the assistant turn to the history returned by the
call, closes typing, opens read time, and sets `convincedThroughDialogue`
exactly when `newTarget` names the target waypoint.  `callHistory` is the
`conversationHistory` value returned by `processNPCInteraction` (the
history at send time plus the user turn). -/
def applyJudgeCompletion (ws : List Waypoint) (callHistory : List ChatMessage) (n : NPC) : NPC :=
  let newTarget := judgeNewTarget n
  let targetWaypointId := (findTarget ws).map (fun w => w.id)
  let isNowConvinced : Bool :=
    match newTarget, targetWaypointId with
    | some t, some tid => t == tid
    | _, _ => false
  { n with
    targetWaypoint := (match newTarget with | some t => some t | none => n.targetWaypoint),
    conversationHistory :=
      callHistory ++ [⟨Role.assistant, jsOr (judgeMessage n) "I\x27m not sure how to respond to that."⟩],
    isTyping := false,
    responseComplete := true,
    readTimeRemaining := calculateReadTime (jsOr (judgeMessage n) ""),
    convincedThroughDialogue := isNowConvinced }

/-- Failure branch of `handleSendMessage` in Game.tsx: on a rejected
judge call the agent gets a fixed fallback assistant line, typing is
cleared, a fixed 3 second read time opens, and nothing else changes. -/
def applySendMessageFailure (n : NPC) : NPC :=
  { n with
    conversationHistory :=
      n.conversationHistory ++
        [⟨Role.assistant, "Sorry, I\x27m having trouble understanding. Can you try again?"⟩],
    isTyping := false,
    responseComplete := true,
    readTimeRemaining := 3 }

/-- Click handler `handleNpcInteraction` in Game.tsx, restricted to one
agent: the clicked agent toggles its dialogue, except that closing is
refused while typing or during a pending read time; every other agent is
force-closed. -/
def handleNpcInteractionUpd (npcId : Nat) (npc : NPC) : NPC :=
  if npc.id == npcId then
    if npc.isInteracting then
      if npc.isTyping || (npc.responseComplete && decide (0 < npc.readTimeRemaining)) then
        npc
      else
        { npc with isInteracting := false, responseComplete := false }
    else
      { npc with isInteracting := true }
  else
    { npc with isInteracting := false }

/-- Ground-click close from `handleGroundClick` in Game.tsx, restricted
to one agent: an open dialogue is closed unless the agent is typing or a
read time is pending. -/
def handleGroundClickUpd (npc : NPC) : NPC :=
  if npc.isInteracting && (npc.isTyping || (npc.responseComplete && decide (0 < npc.readTimeRemaining))) then
    npc
  else
    { npc with isInteracting := false, responseComplete := false }

/-- Win evaluator from Game.tsx: returns the next value of the `gameWon`
flag.  A frame with `gameWon` already set is not evaluated at all; an
unset flag flips exactly when every agent of a nonempty roster is
convinced and within `radius + 1.0` of the target. -/
def winCheck (ws : List Waypoint) (npcs : List NPC) (gameWon : Bool) : Bool :=
  if gameWon then
    true
  else
    match findTarget ws with
    | none => false
    | some tw =>
      (npcs.all fun npc =>
        npc.isConvinced && distLeB npc.position tw.position (tw.radius + 1))
        && decide (0 < npcs.length)

/-- Farewell lines of the convinced-state `GameManager`
(`snarkyComments` in the earlier Game.tsx iteration). -/
def snarkyComments : List String :=
  ["I\x27ve wasted enough time here.",
   "This place is boring. I\x27m out!",
   "30 seconds of my life I\x27ll never get back.",
   "Okay, I came here. Happy now?",
   "That\x27s enough of this place.",
   "Time\x27s up! I\x27m going somewhere more interesting.",
   "I\x27ve fulfilled my obligation. Bye!",
   "The things I do for others..."]

/-- Placeholder waypoint used as the `List.getD` default; every theorem
below carries an in-range hypothesis matching the JavaScript guarantee
`Math.floor(Math.random() * n) < n`, so the placeholder is never
selected (the source would throw on an out-of-range index). -/
def noWaypoint : Waypoint :=
  ⟨0, "", ⟨0, 0⟩, false, "", 0⟩

/-- Per-agent frame update of the `GameManager` in the earlier Game.tsx
iteration (second document of `src/unnamed/part_000`), the version that
implements the convinced-state machine: eviction on leaving the target,
read-time countdown with auto-close, the 30 second convinced timer with
late warning and farewell, the convinced transition on reaching the
target after dialogue, and ordinary dwelling with re-selection.
`rFarewell`, `rEvict` and `rDwell` are the `Math.random` draws of the
three selection sites. -/
def gmStepV2 (ws : List Waypoint) (delta : ℚ) (rFarewell rEvict rDwell : Nat) (npc : NPC) : NPC :=
  match findTarget ws with
  | none => npc
  | some targetWaypoint =>
    let atTargetPosition := distLeB npc.position targetWaypoint.position (targetWaypoint.radius + 1)
    if npc.isConvinced && !atTargetPosition then
      { npc with isConvinced := false, convincedTimer := 0, snarkyComment := none,
                 convincedThroughDialogue := false }
    else if npc.isInteracting && npc.responseComplete && decide (0 < npc.readTimeRemaining) then
      let newReadTime := max 0 (npc.readTimeRemaining - delta)
      if decide (newReadTime ≤ 0) && !npc.isTyping then
        { npc with readTimeRemaining := 0, isInteracting := false, responseComplete := false }
      else
        { npc with readTimeRemaining := newReadTime }
    else if npc.isInteracting && !npc.responseComplete then
      npc
    else if npc.isConvinced && atTargetPosition then
      let newTimer := npc.convincedTimer - delta
      if newTimer ≤ 0 then
        let randomComment := snarkyComments.getD rFarewell ""
        let availableWaypoints := ws.filter (fun w => !w.isTarget)
        let randomWaypoint := availableWaypoints.getD rEvict noWaypoint
        { npc with isConvinced := false, convincedTimer := 0, snarkyComment := none,
                   targetWaypoint := some randomWaypoint.id, lastWaypoint := npc.targetWaypoint,
                   currentWaypoint := none, convincedThroughDialogue := false,
                   conversationHistory :=
                     npc.conversationHistory ++ [⟨Role.assistant, randomComment⟩] }
      else
        { npc with convincedTimer := newTimer,
                   snarkyComment :=
                     if decide (newTimer ≤ 5) && !jsTruthy npc.snarkyComment then
                       some "I\x27m not staying here much longer..."
                     else
                       npc.snarkyComment }
    else
      match npc.targetWaypoint with
      | none => npc
      | some twId =>
        match ws.find? (fun w => w.id == twId) with
        | none => npc
        | some currentTargetWaypoint =>
          if distLeB npc.position currentTargetWaypoint.position (currentTargetWaypoint.radius + 1 / 2) then
            if currentTargetWaypoint.isTarget && npc.convincedThroughDialogue then
              { npc with isConvinced := true, convincedTimer := 30, snarkyComment := none,
                         dwellTime := 0 }
            else
              let newDwellTime := npc.dwellTime + delta
              if 2 ≤ newDwellTime then
                let availableWaypoints := ws.filter (fun w =>
                  !w.isTarget && !(w.id == twId) && !(npc.lastWaypoint == some w.id))
                let waypointsToChooseFrom :=
                  if 0 < availableWaypoints.length then
                    availableWaypoints
                  else
                    ws.filter (fun w => !w.isTarget && !(w.id == twId))
                let randomWaypoint := waypointsToChooseFrom.getD rDwell noWaypoint
                { npc with dwellTime := 0, currentWaypoint := npc.targetWaypoint,
                           lastWaypoint := npc.targetWaypoint,
                           targetWaypoint := some randomWaypoint.id }
              else
                { npc with dwellTime := newDwellTime }
          else
            npc

/-- Per-agent frame update of the `GameManager` in the current Game.tsx:
convinced agents head for the target, dwelling agents count down and
re-select (excluding only the current and last waypoints), travelling
agents arrive or advance.  The normalized-direction movement step writes
only `position` and involves a square root irrational over the
rationals, so it is abstracted as the `move` argument; `rDwell` is the
`Math.random` draw of the re-selection and `dwellDur` the randomized
`3 + Math.random() * 2` dwell duration assigned on arrival. -/
def gmStepV3 (move : Position → Position → ℚ → Position) (ws : List Waypoint)
    (delta : ℚ) (rDwell : Nat) (dwellDur : ℚ) (npc : NPC) : NPC :=
  if npc.isInteracting then
    npc
  else if npc.isConvinced then
    match findTarget ws with
    | none => npc
    | some targetWaypoint =>
      if distLtB npc.position targetWaypoint.position targetWaypoint.radius then
        npc
      else
        { npc with position := move npc.position targetWaypoint.position npc.speed }
  else
    match npc.currentWaypoint with
    | some cw =>
      match ws.find? (fun w => w.id == cw) with
      | none => npc
      | some _ =>
        if 0 < npc.dwellTime then
          { npc with dwellTime := npc.dwellTime - delta }
        else
          let availableWaypoints :=
            ws.filter (fun w => !(w.id == cw) && !(npc.lastWaypoint == some w.id))
          let randomWaypoint := availableWaypoints.getD rDwell noWaypoint
          { npc with targetWaypoint := some randomWaypoint.id, currentWaypoint := none,
                     lastWaypoint := some cw }
    | none =>
      match npc.targetWaypoint with
      | none => npc
      | some twId =>
        match ws.find? (fun w => w.id == twId) with
        | none => npc
        | some targetWaypoint =>
          if distLtB npc.position targetWaypoint.position targetWaypoint.radius then
            { npc with currentWaypoint := some twId, targetWaypoint := none,
                       dwellTime := dwellDur }
          else
            { npc with position := move npc.position targetWaypoint.position npc.speed }

/-- Whole-roster frame update of the current `GameManager`: when every
agent is convinced the roster is returned untouched, otherwise each
agent takes its per-agent step with its own random draws. -/
def gmFrameV3 (move : Position → Position → ℚ → Position) (ws : List Waypoint)
    (delta : ℚ) (rDwell : NPC → Nat) (dwellDur : NPC → ℚ) (npcs : List NPC) : List NPC :=
  if npcs.all (fun npc => npc.isConvinced) then
    npcs
  else
    npcs.map (fun npc => gmStepV3 move ws delta (rDwell npc) (dwellDur npc) npc)

/-- An agent record satisfies the waypoint-exclusivity invariant when
`currentWaypoint` and `targetWaypoint` are not both non-null. -/
def notBothB (npc : NPC) : Bool :=
  !(npc.currentWaypoint.isSome && npc.targetWaypoint.isSome)

/-- The target waypoint of the configured round (`waypoints` initial
state in Game.tsx). -/
def lightPole : Waypoint :=
  ⟨1, "Light Pole", ⟨10, 10⟩, true, "lightpole", 3 / 2⟩

/-- Waypoint configuration of the round, from the `useState` initial
value in Game.tsx. -/
def defaultWaypoints : List Waypoint :=
  [lightPole,
   ⟨2, "Bush", ⟨-10, 10⟩, false, "bush", 3 / 2⟩,
   ⟨3, "Bench", ⟨10, -10⟩, false, "bench", 2⟩,
   ⟨4, "Fountain", ⟨-10, -10⟩, false, "fountain", 5 / 2⟩,
   ⟨5, "Tree", ⟨15, 0⟩, false, "tree", 2⟩,
   ⟨6, "Rock", ⟨-15, 0⟩, false, "rock", 3 / 2⟩,
   ⟨7, "Signpost", ⟨0, 15⟩, false, "signpost", 1⟩]

/-- List lookup with a default stays inside the list when the index is
in range. -/
theorem getD_mem {α : Type} (l : List α) (n : Nat) (d : α) (h : n < l.length) :
    l.getD n d ∈ l := by
  rw [List.getD_eq_getElem l d h]
  exact List.getElem_mem h

/-- Base agent record: NPC 1 of the configured round (initial `useState`
value in Game.tsx); witnesses below override individual fields. -/
def npcBase : NPC :=
  { id := 1, position := ⟨5, 5⟩, color := "red",
    currentWaypoint := none, targetWaypoint := none, speed := 1 / 20,
    isInteracting := false, dwellTime := 0, lastWaypoint := none,
    personality := "You\x27re impatient and easily annoyed, but you can be convinced if someone offers a logical reason.",
    conversationHistory := [], aiResponse := none, isTyping := false,
    isConvinced := false, convincedTimer := 0, snarkyComment := none,
    readTimeRemaining := 0, responseComplete := false, convincedThroughDialogue := false }

/-- C1: when the judge stream completes for an agent,
`convincedThroughDialogue` is set exactly when the structured result
names the configured target waypoint id, and every numeric `newTarget`
is written to `targetWaypoint`; in particular a non-target numeric
`newTarget` updates `targetWaypoint` while the flag is false. -/
theorem judge_completion_sets_flags (ws : List Waypoint) (hist : List ChatMessage)
    (n : NPC) (tw : Waypoint) (hfind : findTarget ws = some tw) :
    ((applyJudgeCompletion ws hist n).convincedThroughDialogue = true
      ↔ judgeNewTarget n = some tw.id)
    ∧ ∀ t : Nat, judgeNewTarget n = some t →
        (applyJudgeCompletion ws hist n).targetWaypoint = some t
          ∧ ((applyJudgeCompletion ws hist n).convincedThroughDialogue = true ↔ t = tw.id) := by
  unfold applyJudgeCompletion
  rw [hfind]
  cases hj : judgeNewTarget n with
  | none => simp [hj]
  | some t0 => simp [hj]

/-- Witness for C1 at a concrete input: the judge directs agent 1 to
waypoint 3, which is not the target (the target is waypoint 1), so
`targetWaypoint` updates while the convinced flag stays false. -/
def npcJudgeDone : NPC :=
  { npcBase with isInteracting := true, isTyping := true,
                 aiResponse := some ⟨none, some ⟨"Fine. The bench it is.", some 3⟩⟩ }

/-- Witness for C1. -/
theorem judge_completion_sets_flags_witness :
    (applyJudgeCompletion defaultWaypoints [] npcJudgeDone).targetWaypoint = some 3
      ∧ ((applyJudgeCompletion defaultWaypoints [] npcJudgeDone).convincedThroughDialogue = true
          ↔ 3 = lightPole.id) :=
  (judge_completion_sets_flags defaultWaypoints [] npcJudgeDone lightPole rfl).2 3 rfl

/-- C7: a failed judge call appends the fixed fallback assistant line,
clears typing, opens a fixed 3 second read time, and leaves both
`targetWaypoint` and `convincedThroughDialogue` untouched. -/
theorem send_message_failure_recovery (n : NPC) :
    (applySendMessageFailure n).conversationHistory
        = n.conversationHistory
            ++ [⟨Role.assistant, "Sorry, I\x27m having trouble understanding. Can you try again?"⟩]
      ∧ (applySendMessageFailure n).isTyping = false
      ∧ (applySendMessageFailure n).responseComplete = true
      ∧ (applySendMessageFailure n).readTimeRemaining = 3
      ∧ (applySendMessageFailure n).targetWaypoint = n.targetWaypoint
      ∧ (applySendMessageFailure n).convincedThroughDialogue = n.convincedThroughDialogue :=
  ⟨rfl, rfl, rfl, rfl, rfl, rfl⟩

/-- C9: a close request directed at an open interaction, by clicking the
interacting agent again or by clicking the ground, is a silent no-op
while the agent is typing or a read time is pending. -/
theorem protected_close_request_noop (npc : NPC)
    (hopen : npc.isInteracting = true)
    (hprot : npc.isTyping = true ∨ (npc.responseComplete = true ∧ 0 < npc.readTimeRemaining)) :
    handleNpcInteractionUpd npc.id npc = npc ∧ handleGroundClickUpd npc = npc := by
  have hguard : (npc.isTyping || (npc.responseComplete && decide (0 < npc.readTimeRemaining))) = true := by
    rcases hprot with h | ⟨h1, h2⟩
    · simp [h]
    · simp [h1, h2]
  constructor
  · unfold handleNpcInteractionUpd
    simp [hopen, hguard]
  · unfold handleGroundClickUpd
    simp [hopen, hguard]

/-- Witness agent for C9: interacting and typing. -/
def npcProtected : NPC :=
  { npcBase with isInteracting := true, isTyping := true }

/-- Witness for C9. -/
theorem protected_close_request_noop_witness :
    handleNpcInteractionUpd npcProtected.id npcProtected = npcProtected
      ∧ handleGroundClickUpd npcProtected = npcProtected :=
  protected_close_request_noop npcProtected rfl (Or.inl rfl)

/-- C10: on an agent that is not typing and has no pending read time,
the close-interaction transformation (the close applied by
`handleGroundClick`, and by `handleNpcInteraction` to an interacting
clicked agent) is idempotent. -/
theorem close_interaction_idempotent (npc : NPC)
    (htyp : npc.isTyping = false) (hread : npc.readTimeRemaining ≤ 0) :
    handleGroundClickUpd (handleGroundClickUpd npc) = handleGroundClickUpd npc := by
  have hlt : decide (0 < npc.readTimeRemaining) = false := by
    simp [not_lt.mpr hread]
  unfold handleGroundClickUpd
  simp [htyp, hlt]

/-- Witness agent for C10: open interaction, response fully read. -/
def npcClosable : NPC :=
  { npcBase with isInteracting := true, responseComplete := true }

/-- Witness for C10. -/
theorem close_interaction_idempotent_witness :
    handleGroundClickUpd (handleGroundClickUpd npcClosable) = handleGroundClickUpd npcClosable :=
  close_interaction_idempotent npcClosable rfl le_rfl

/-- C3: with a configured target and a nonempty roster, the round is won
exactly when every agent is simultaneously convinced and within
`radius + 1.0` of the target in the same frame; and once the flag is
set, later frames perform no evaluation and can never clear it. -/
theorem win_condition_iff_and_latch (ws : List Waypoint) (npcs : List NPC) (tw : Waypoint)
    (hfind : findTarget ws = some tw) (hne : npcs ≠ []) :
    (winCheck ws npcs false = true
      ↔ ∀ npc ∈ npcs, npc.isConvinced = true
          ∧ distLeB npc.position tw.position (tw.radius + 1) = true)
    ∧ ∀ laterNpcs : List NPC, winCheck ws laterNpcs true = true := by
  constructor
  · unfold winCheck
    rw [hfind]
    simp [List.all_eq_true, Bool.and_eq_true, List.length_pos, hne]
  · intro laterNpcs
    simp [winCheck]

/-- Witness agent for C3: convinced and standing on the target. -/
def npcAtTarget : NPC :=
  { npcBase with isConvinced := true, position := ⟨10, 10⟩,
                 convincedThroughDialogue := true, convincedTimer := 30 }

/-- Witness for C3. -/
theorem win_condition_iff_and_latch_witness :
    (winCheck defaultWaypoints [npcAtTarget] false = true
      ↔ ∀ npc ∈ [npcAtTarget], npc.isConvinced = true
          ∧ distLeB npc.position lightPole.position (lightPole.radius + 1) = true)
      ∧ ∀ laterNpcs : List NPC, winCheck defaultWaypoints laterNpcs true = true :=
  win_condition_iff_and_latch defaultWaypoints [npcAtTarget] lightPole rfl (by simp)

/-- C4: a convinced agent found outside `radius + 1.0` of the target at
a frame update is immediately stripped of `isConvinced`,
`convincedThroughDialogue` and the timer, whatever time remained. -/
theorem convinced_agent_leaving_target_cleared (ws : List Waypoint) (delta : ℚ)
    (rFarewell rEvict rDwell : Nat) (npc : NPC) (tw : Waypoint)
    (hfind : findTarget ws = some tw)
    (hconv : npc.isConvinced = true)
    (hout : distLeB npc.position tw.position (tw.radius + 1) = false) :
    gmStepV2 ws delta rFarewell rEvict rDwell npc
      = { npc with isConvinced := false, convincedTimer := 0, snarkyComment := none,
                   convincedThroughDialogue := false } := by
  unfold gmStepV2
  rw [hfind]
  simp [hconv, hout]

/-- Witness agent for C4: convinced with 20 seconds left, but at the
arena origin, far outside the target capture zone. -/
def npcFarConvinced : NPC :=
  { npcBase with isConvinced := true, convincedTimer := 20, position := ⟨0, 0⟩,
                 convincedThroughDialogue := true }

/-- Witness for C4. -/
theorem convinced_agent_leaving_target_cleared_witness :
    gmStepV2 defaultWaypoints (1 / 60) 0 0 0 npcFarConvinced
      = { npcFarConvinced with isConvinced := false, convincedTimer := 0,
                               snarkyComment := none, convincedThroughDialogue := false } :=
  convinced_agent_leaving_target_cleared defaultWaypoints (1 / 60) 0 0 0 npcFarConvinced
    lightPole rfl rfl
    (by norm_num [distLeB, sqDist, lightPole, npcFarConvinced, npcBase])

/-- C2: an uninvolved, not-yet-convinced agent that reaches its
destination waypoint, when that destination is the target and
`convincedThroughDialogue` holds, transitions directly to
`isConvinced = true` with the timer started at 30 seconds and dwelling
skipped; with `convincedThroughDialogue` false the same arrival is
ordinary dwelling and never sets `isConvinced`. -/
theorem target_arrival_convinced_transition (ws : List Waypoint) (delta : ℚ)
    (rFarewell rEvict rDwell : Nat) (npc : NPC) (tw ctw : Waypoint) (twId : Nat)
    (hfind : findTarget ws = some tw)
    (hint : npc.isInteracting = false)
    (hnc : npc.isConvinced = false)
    (htw : npc.targetWaypoint = some twId)
    (hfid : ws.find? (fun w => w.id == twId) = some ctw)
    (hct : ctw.isTarget = true)
    (harr : distLeB npc.position ctw.position (ctw.radius + 1 / 2) = true) :
    (npc.convincedThroughDialogue = true →
      gmStepV2 ws delta rFarewell rEvict rDwell npc
        = { npc with isConvinced := true, convincedTimer := 30, snarkyComment := none,
                     dwellTime := 0 })
    ∧ (npc.convincedThroughDialogue = false →
      (gmStepV2 ws delta rFarewell rEvict rDwell npc).isConvinced = false
        ∧ (gmStepV2 ws delta rFarewell rEvict rDwell npc).convincedTimer
            = npc.convincedTimer) := by
  unfold gmStepV2
  rw [hfind]
  rw [one_div] at harr
  constructor
  · intro hcd
    simp [hint, hnc, htw, hfid, hct, hcd, harr]
  · intro hcd
    simp [hint, hnc, htw, hfid, hct, hcd, harr]
    rcases le_or_lt 2 (npc.dwellTime + delta) with h2 | h2
    · simp [h2]
    · simp [h2.not_le]

/-- Witness agent for C2: persuaded through dialogue, heading to the
target waypoint and one unit short of its centre. -/
def npcArriving : NPC :=
  { npcBase with targetWaypoint := some 1, convincedThroughDialogue := true,
                 position := ⟨10, 9⟩ }

/-- Witness for C2. -/
theorem target_arrival_convinced_transition_witness :
    (npcArriving.convincedThroughDialogue = true →
      gmStepV2 defaultWaypoints (1 / 60) 0 0 0 npcArriving
        = { npcArriving with isConvinced := true, convincedTimer := 30, snarkyComment := none,
                             dwellTime := 0 })
      ∧ (npcArriving.convincedThroughDialogue = false →
        (gmStepV2 defaultWaypoints (1 / 60) 0 0 0 npcArriving).isConvinced = false
          ∧ (gmStepV2 defaultWaypoints (1 / 60) 0 0 0 npcArriving).convincedTimer
              = npcArriving.convincedTimer) :=
  target_arrival_convinced_transition defaultWaypoints (1 / 60) 0 0 0 npcArriving lightPole
    lightPole 1 rfl rfl rfl rfl rfl rfl
    (by norm_num [distLeB, sqDist, npcArriving, npcBase, lightPole])

/-- C5: while a convinced agent stays at the target, each frame lowers
the timer by the delta; once the remainder is at most 5 seconds the
warning comment is non-null; and on expiry the convinced state is
cleared, a farewell line drawn from the fixed pool is appended to the
history, and a fresh non-target waypoint is selected so wandering
resumes. -/
theorem convinced_timer_warning_and_expiry (ws : List Waypoint) (delta : ℚ)
    (rFarewell rEvict rDwell : Nat) (npc : NPC) (tw : Waypoint)
    (hfind : findTarget ws = some tw)
    (hconv : npc.isConvinced = true)
    (hint : npc.isInteracting = false)
    (hat : distLeB npc.position tw.position (tw.radius + 1) = true)
    (hr : rFarewell < snarkyComments.length)
    (he : rEvict < (ws.filter (fun w => !w.isTarget)).length) :
    (0 < npc.convincedTimer - delta →
      (gmStepV2 ws delta rFarewell rEvict rDwell npc).convincedTimer
          = npc.convincedTimer - delta
        ∧ (npc.convincedTimer - delta ≤ 5 →
            (gmStepV2 ws delta rFarewell rEvict rDwell npc).snarkyComment ≠ none))
    ∧ (npc.convincedTimer - delta ≤ 0 →
        (gmStepV2 ws delta rFarewell rEvict rDwell npc).isConvinced = false
          ∧ (gmStepV2 ws delta rFarewell rEvict rDwell npc).convincedThroughDialogue = false
          ∧ (gmStepV2 ws delta rFarewell rEvict rDwell npc).convincedTimer = 0
          ∧ (gmStepV2 ws delta rFarewell rEvict rDwell npc).conversationHistory
              = npc.conversationHistory
                  ++ [⟨Role.assistant, snarkyComments.getD rFarewell ""⟩]
          ∧ snarkyComments.getD rFarewell "" ∈ snarkyComments
          ∧ ∃ w ∈ ws, w.isTarget = false
              ∧ (gmStepV2 ws delta rFarewell rEvict rDwell npc).targetWaypoint = some w.id) := by
  unfold gmStepV2
  rw [hfind]
  constructor
  · intro htpos
    simp [hconv, hint, hat, htpos.not_le]
    intro h5
    cases hsn : npc.snarkyComment with
    | none => simp [jsTruthy, h5, hsn]
    | some s =>
      simp [jsTruthy, h5, hsn]
      split <;> simp
  · intro htneg
    have hmem := List.mem_filter.mp
      (getD_mem (ws.filter (fun w => !w.isTarget)) rEvict noWaypoint he)
    simp [hconv, hint, hat, htneg]
    refine ⟨?_, (ws.filter (fun w => !w.isTarget)).getD rEvict noWaypoint, hmem.1, ?_, ?_⟩
    · simpa [List.getD] using getD_mem snarkyComments rFarewell "" hr
    · simpa using hmem.2
    · simp [List.getD]

/-- Witness agent for C5: convinced, standing on the target, 3 seconds
left on the stay timer. -/
def npcStaying : NPC :=
  { npcBase with isConvinced := true, convincedTimer := 3, position := ⟨10, 10⟩,
                 convincedThroughDialogue := true }

/-- Witness for C5. -/
theorem convinced_timer_warning_and_expiry_witness :
    (0 < npcStaying.convincedTimer - 1 / 60 →
      (gmStepV2 defaultWaypoints (1 / 60) 0 0 0 npcStaying).convincedTimer
          = npcStaying.convincedTimer - 1 / 60
        ∧ (npcStaying.convincedTimer - 1 / 60 ≤ 5 →
            (gmStepV2 defaultWaypoints (1 / 60) 0 0 0 npcStaying).snarkyComment ≠ none))
    ∧ (npcStaying.convincedTimer - 1 / 60 ≤ 0 →
        (gmStepV2 defaultWaypoints (1 / 60) 0 0 0 npcStaying).isConvinced = false
          ∧ (gmStepV2 defaultWaypoints (1 / 60) 0 0 0 npcStaying).convincedThroughDialogue = false
          ∧ (gmStepV2 defaultWaypoints (1 / 60) 0 0 0 npcStaying).convincedTimer = 0
          ∧ (gmStepV2 defaultWaypoints (1 / 60) 0 0 0 npcStaying).conversationHistory
              = npcStaying.conversationHistory
                  ++ [⟨Role.assistant, snarkyComments.getD 0 ""⟩]
          ∧ snarkyComments.getD 0 "" ∈ snarkyComments
          ∧ ∃ w ∈ defaultWaypoints, w.isTarget = false
              ∧ (gmStepV2 defaultWaypoints (1 / 60) 0 0 0 npcStaying).targetWaypoint
                  = some w.id) :=
  convinced_timer_warning_and_expiry defaultWaypoints (1 / 60) 0 0 0 npcStaying lightPole
    rfl rfl rfl
    (by norm_num [distLeB, sqDist, npcStaying, npcBase, lightPole])
    (by decide) (by decide)

/-- Agent of C6: dwelling at waypoint 2 (the Bush) with its dwell timer
exhausted and no last waypoint recorded. -/
def npcDwellingAtBush : NPC :=
  { npcBase with currentWaypoint := some 2, dwellTime := 0 }

/-- C6 failing evaluation: in the current Game.tsx `GameManager`, the
dwell re-selection filters out only the current and last waypoints, so
with random index 0 the agent dwelling at waypoint 2 is sent to
waypoint 1, which is the configured target. -/
theorem dwell_reselection_returns_target :
    (gmStepV3 (fun p _ _ => p) defaultWaypoints (1 / 60) 0 3 npcDwellingAtBush).targetWaypoint
        = some lightPole.id
      ∧ lightPole.isTarget = true
      ∧ findTarget defaultWaypoints = some lightPole := by
  refine ⟨?_, rfl, rfl⟩
  rfl

/-- Agent of the C8 counterexample: dwelling at waypoint 2 when the
judge completion (directing it to waypoint 3) lands. -/
def npcDwellingMerged : NPC :=
  { npcBase with currentWaypoint := some 2, dwellTime := 3,
                 aiResponse := some ⟨none, some ⟨"Fine, the bench.", some 3⟩⟩ }

/-- C8 counterexample: the judge-completion merge writes
`targetWaypoint` without clearing `currentWaypoint`, so an agent that
was dwelling when the asynchronous result lands has both fields
non-null, violating the claimed invariant. -/
theorem merge_breaks_waypoint_exclusivity :
    (applyJudgeCompletion defaultWaypoints [] npcDwellingMerged).currentWaypoint = some 2
      ∧ (applyJudgeCompletion defaultWaypoints [] npcDwellingMerged).targetWaypoint = some 3
      ∧ notBothB (applyJudgeCompletion defaultWaypoints [] npcDwellingMerged) = false :=
  ⟨rfl, rfl, rfl⟩

/-- Every branch of the current per-agent frame update keeps
`currentWaypoint` and `targetWaypoint` from being both non-null. -/
theorem gmStepV3_preserves_notBoth (move : Position → Position → ℚ → Position)
    (ws : List Waypoint) (delta : ℚ) (rDwell : Nat) (dwellDur : ℚ) (npc : NPC)
    (h : notBothB npc = true) :
    notBothB (gmStepV3 move ws delta rDwell dwellDur npc) = true := by
  unfold gmStepV3
  split
  · exact h
  · split
    · split
      · exact h
      · split
        · exact h
        · simpa [notBothB] using h
    · split
      · split
        · exact h
        · split
          · simpa [notBothB] using h
          · simp [notBothB]
      · split
        · exact h
        · split
          · exact h
          · split
            · simp [notBothB]
            · simpa [notBothB] using h

/-- C8 amended: the per-frame `GameManager` update preserves the
exclusivity of `currentWaypoint` and `targetWaypoint` for every agent of
the roster, and the judge-completion merge preserves it for an agent
that is not dwelling; the invariant as originally claimed fails only
when the merge lands on a dwelling agent
(`merge_breaks_waypoint_exclusivity`). -/
theorem waypoint_exclusivity_amended (move : Position → Position → ℚ → Position)
    (ws : List Waypoint) (delta : ℚ) (rDwell : NPC → Nat) (dwellDur : NPC → ℚ)
    (npcs : List NPC) (hall : npcs.all notBothB = true)
    (hist : List ChatMessage) (n : NPC) (hcw : n.currentWaypoint = none) :
    (gmFrameV3 move ws delta rDwell dwellDur npcs).all notBothB = true
      ∧ notBothB (applyJudgeCompletion ws hist n) = true := by
  constructor
  · unfold gmFrameV3
    split
    · exact hall
    · rw [List.all_eq_true] at hall ⊢
      intro x hx
      rw [List.mem_map] at hx
      obtain ⟨y, hy, rfl⟩ := hx
      exact gmStepV3_preserves_notBoth _ _ _ _ _ _ (hall y hy)
  · simp [applyJudgeCompletion, notBothB, hcw]

/-- Witness for the amended C8. -/
theorem waypoint_exclusivity_amended_witness :
    (gmFrameV3 (fun p _ _ => p) defaultWaypoints (1 / 60) (fun _ => 0) (fun _ => 4)
        [npcBase]).all notBothB = true
      ∧ notBothB (applyJudgeCompletion defaultWaypoints [] npcJudgeDone) = true :=
  waypoint_exclusivity_amended (fun p _ _ => p) defaultWaypoints (1 / 60) (fun _ => 0)
    (fun _ => 4) [npcBase] rfl [] npcJudgeDone rfl
